import Mathlib

/-!
Verification development for the sjm-school-app repository: a shallow
embedding of the Firestore security rulesets, the teacher dashboard load
logic, the student attendance page load logic, and the admin/student login
form submit handlers, together with theorems settling the stated
access-policy and behavioural properties.
-/

namespace SJM

/-! ## String helpers

JS `String.prototype.includes` (substring containment) modelled over the
character list of a string. -/

/-- Does the haystack start with the needle? -/
def chStarts : List Char → List Char → Bool
  | [], _ => true
  | _ :: _, [] => false
  | a :: as, b :: bs => a == b && chStarts as bs

/-- Does the haystack contain the needle as a contiguous run? -/
def chContains (needle : List Char) : List Char → Bool
  | [] => chStarts needle []
  | b :: bs => chStarts needle (b :: bs) || chContains needle bs

/-- JS `s.includes(sub)`. -/
def strIncludes (s sub : String) : Bool :=
  chContains sub.data s.data

/-! ## Firestore rules model (src/firestore.rules)

Rule-language values carried in auth-token claims and document fields.
Firestore `==` between values of different runtime types is false, and a
rule whose condition accesses a missing field denies the request. -/

inductive ClaimValue where
  | vBool (b : Bool)
  | vString (s : String)
  | vInt (n : Int)
  deriving DecidableEq, Repr

/-- Firestore rule-language `==` on claim/field values: values of different
runtime types are never equal. -/
def cvEq : ClaimValue → ClaimValue → Bool
  | .vBool a, .vBool b => a == b
  | .vString a, .vString b => a == b
  | .vInt a, .vInt b => a == b
  | _, _ => false

structure AuthToken where
  claims : List (String × ClaimValue)
  deriving DecidableEq, Repr

structure AuthInfo where
  uid : String
  token : AuthToken
  deriving DecidableEq, Repr

/-- A request as seen by the rules engine: `request.auth` and (for create
operations) `request.resource.data`. -/
structure RulesRequest where
  auth : Option AuthInfo
  resourceData : List (String × ClaimValue)
  deriving DecidableEq, Repr

/-- `request.auth.token.<k>`: lookup of a custom claim on the token. -/
def tokenClaim (a : AuthInfo) (k : String) : Option ClaimValue :=
  a.token.claims.lookup k

/-- `request.resource.data.<k>`: lookup of a field of the submitted document. -/
def dataField (d : List (String × ClaimValue)) (k : String) : Option ClaimValue :=
  d.lookup k

/-- Ruleset A `isAdmin()`:
`request.auth != null && request.auth.token.isAdmin == true`.
Accessing a missing claim fails the condition (request denied). -/
def isAdminA (auth : Option AuthInfo) : Bool :=
  match auth with
  | none => false
  | some a =>
    match tokenClaim a "isAdmin" with
    | none => false
    | some v => cvEq v (.vBool true)

/-- Ruleset A, `match /students/{studentDocId}` create rule:
`allow create: if isAdmin() && request.resource.data.studentId == studentDocId`. -/
def studentsCreateA (req : RulesRequest) (studentDocId : String) : Bool :=
  isAdminA req.auth &&
    (match dataField req.resourceData "studentId" with
     | none => false
     | some v => cvEq v (.vString studentDocId))

/-- Ruleset B `isAdmin()`: `return request.auth != null` — any authenticated
caller counts as admin. -/
def isAdminB (auth : Option AuthInfo) : Bool :=
  auth.isSome

/-- Ruleset B, `match /students/{studentId}` create rule:
`allow create: if isAdmin()` — no check of the submitted data at all. -/
def studentsCreateB (req : RulesRequest) (_studentDocId : String) : Bool :=
  isAdminB req.auth

/-! ## Teacher dashboard (src/src/app/teacher/dashboard/page.tsx)

`loadDashboardData` embedded as a pure function of the localStorage read
and the three backend responses. A Supabase call that returned an error is
re-thrown by the code (`if (xError) throw xError`), so each response is an
`Except String _` carrying the thrown message, with the returned `data`
payload as the success value (nullable, mirroring `data || []` guards). -/

structure TeacherProfile where
  id : String
  auth_user_id : String
  full_name : String
  email : String
  subjects_taught : String
  contact_number : String
  assigned_classes : List String
  deriving DecidableEq, Repr

structure StudentRow where
  student_id_display : String
  full_name : String
  date_of_birth : String
  grade_level : String
  guardian_name : String
  guardian_contact : String
  contact_email : Option String
  deriving DecidableEq, Repr

structure Announcement where
  id : String
  title : String
  message : String
  target_audience : String
  author_name : Option String
  created_at : String
  deriving DecidableEq, Repr

/-- The component state mutated by `loadDashboardData`, plus the navigation
effect (`router.push`). The `studentsByClass` JS object is modelled as an
association list in insertion order. -/
structure DashState where
  teacherProfile : Option TeacherProfile := none
  studentsByClass : List (String × List StudentRow) := []
  announcements : List Announcement := []
  error : Option String := none
  announcementsError : Option String := none
  redirectedTo : Option String := none
  deriving DecidableEq, Repr

/-- The grouping loop:
`for (const className of profileData.assigned_classes)
   studentsForTeacher[className] = (allAssignedStudents || []).filter(s => s.grade_level === className)`. -/
def buildStudentsByClass (assigned : List String) (students : List StudentRow) :
    List (String × List StudentRow) :=
  assigned.map (fun className => (className, students.filter (fun s => s.grade_level == className)))

/-- Indexing `studentsByClass[className]` on the modelled JS object. -/
def lookupClass (m : List (String × List StudentRow)) (className : String) :
    Option (List StudentRow) :=
  (m.find? (fun e => e.1 == className)).map Prod.snd

/-- `setError(prev => prev ? prev + " " + msg : msg)`: append to any error
already accumulated in the same load cycle. -/
def appendError (prev : Option String) (msg : String) : String :=
  match prev with
  | some p => p ++ " " ++ msg
  | none => msg

/-- The `catch (e)` block of `loadDashboardData`: route the error message by
substring to one of the two error states, appending to a pre-existing
dashboard error. `e.message || "An unknown error occurred"` treats the empty
message as falsy. -/
def dashCatch (st : DashState) (rawMsg : String) : DashState :=
  let errorMessage := if rawMsg = "" then "An unknown error occurred" else rawMsg
  if strIncludes errorMessage "announcements" then
    { st with announcementsError := some ("Failed to load announcements: " ++ errorMessage) }
  else if strIncludes errorMessage "profile" || strIncludes errorMessage "students" then
    { st with error := some (appendError st.error ("Failed to load dashboard data: " ++ errorMessage)) }
  else
    { st with error := some (appendError st.error "An unexpected error occurred.") }

/-- The announcements fetch at the tail of the try block: reset the
announcements error, then either store `announcementData || []` or throw
into the catch handler. -/
def dashAnnouncements (st : DashState)
    (annResp : Except String (Option (List Announcement))) : DashState :=
  let st := { st with announcementsError := none }
  match annResp with
  | .error m => dashCatch st m
  | .ok d => { st with announcements := d.getD [] }

/-- `loadDashboardData` of the teacher dashboard page, as a function of the
stored teacher uid and of the profile / students / announcements responses. -/
def loadDashboardData (teacherAuthUid : Option String)
    (profileResp : Except String (Option TeacherProfile))
    (studentsResp : Except String (Option (List StudentRow)))
    (annResp : Except String (Option (List Announcement))) : DashState :=
  match teacherAuthUid with
  | none =>
    { error := some "Not authenticated. Please login."
      redirectedTo := some "/auth/teacher/login" }
  | some _ =>
    match profileResp with
    | .error m => dashCatch {} m
    | .ok none =>
      dashAnnouncements
        { error := some "Your teacher profile could not be found. Please contact an administrator." }
        annResp
    | .ok (some p) =>
      let st1 : DashState := { teacherProfile := some p }
      if 0 < p.assigned_classes.length then
        match studentsResp with
        | .error m => dashCatch st1 m
        | .ok d =>
          dashAnnouncements
            { st1 with studentsByClass := buildStudentsByClass p.assigned_classes (d.getD []) }
            annResp
      else
        dashAnnouncements { st1 with studentsByClass := [] } annResp

/-- What the announcements card shows: the mapped cards (success branch only)
and whether the view-all affordance appears. -/
structure AnnCardView where
  shown : List Announcement
  showViewAll : Bool
  deriving DecidableEq, Repr

/-- The announcements card render logic: spinner / error text / empty text
suppress the card list, otherwise `announcements.slice(0, 5)` is mapped; the
view-all affordance is `announcements.length > 5 && ...`, outside that
conditional. -/
def renderAnnouncementsCard (isLoadingAnnouncements : Bool)
    (announcementsError : Option String) (announcements : List Announcement) : AnnCardView :=
  { shown :=
      if isLoadingAnnouncements then []
      else if announcementsError.isSome then []
      else if announcements.isEmpty then []
      else announcements.take 5
    showViewAll := decide (5 < announcements.length) }

/-! ## Session identity constants

Modelled from the spec: the `lib/constants` module is not part of the
excerpt; it defines three stable localStorage key names (admin logged-in
flag, teacher auth uid, student display id). The exact literal values are
irrelevant to every property below; only the names matter. -/

/-- Modelled from the spec: the admin logged-in flag key of `lib/constants`. -/
def ADMIN_LOGGED_IN_KEY : String := "ADMIN_LOGGED_IN_KEY"

/-- Modelled from the spec: the teacher auth uid key of `lib/constants`. -/
def TEACHER_LOGGED_IN_UID_KEY : String := "TEACHER_LOGGED_IN_UID_KEY"

/-- Modelled from the spec: the student display id key of `lib/constants`. -/
def CURRENTLY_LOGGED_IN_STUDENT_ID : String := "CURRENTLY_LOGGED_IN_STUDENT_ID"

/-! ## Student attendance page (src/src/app/student/attendance/page.tsx)

`fetchStudentDataAndAttendance` embedded as a pure function of the
localStorage read and the two Firestore responses; a thrown backend
exception is the `.error` constructor carrying `e.message`. -/

structure StudentDoc where
  studentId : String
  fullName : String
  gradeLevel : String
  deriving DecidableEq, Repr

structure AttEntry where
  id : String
  studentId : String
  studentName : String
  className : String
  date : String
  status : String
  notes : String
  markedByTeacherName : String
  deriving DecidableEq, Repr

/-- The component state mutated by `fetchStudentDataAndAttendance`. The page
imports no router, so it can perform no navigation; `redirectedTo` records
that (absent) effect. -/
structure AttendanceState where
  loggedInStudent : Option StudentDoc := none
  attendanceHistory : List AttEntry := []
  error : Option String := none
  redirectedTo : Option String := none
  deriving DecidableEq, Repr

/-- `fetchStudentDataAndAttendance` of the student attendance page:
`studentDocResp` is the `getDoc` result (`.ok none` when
`!studentDocSnap.exists()`), `attResp` the attendance query result. -/
def fetchStudentDataAndAttendance (storedStudentId : Option String)
    (studentDocResp : Except String (Option StudentDoc))
    (attResp : Except String (List AttEntry)) : AttendanceState :=
  match storedStudentId with
  | none => { error := some "Student not identified. Please log in to view attendance." }
  | some _ =>
    match studentDocResp with
    | .error m => { error := some ("Failed to load data: " ++ m) }
    | .ok none => { error := some "Student profile not found. Please contact administration." }
    | .ok (some sd) =>
      match attResp with
      | .error m => { loggedInStudent := some sd, error := some ("Failed to load data: " ++ m) }
      | .ok history => { loggedInStudent := some sd, attendanceHistory := history }

/-- The post-load render branches of the attendance page. -/
inductive AttendanceView where
  | errorCard (withLoginLink : Bool)
  | notFoundCard
  | historyView (entries : List AttEntry)
  deriving DecidableEq, Repr

/-- The render logic after loading: an error renders the error card (with a
login link when the message contains "Please log in"); else a missing
student renders the not-found card; else the history table. -/
def renderAttendancePage (st : AttendanceState) : AttendanceView :=
  match st.error with
  | some e => .errorCard (strIncludes e "Please log in")
  | none =>
    match st.loggedInStudent with
    | none => .notFoundCard
    | some _ => .historyView st.attendanceHistory

/-! ## Login forms (src/unnamed/part_000: AdminLoginForm, src/unnamed/part_001: StudentLoginForm)

`onSubmit` of each form embedded as a pure function of the provider
responses. A Supabase auth call either throws (network failure) or returns
`{ data: { user, session }, error }`; the profile lookup either throws or
returns `{ data, error }` with a PostgREST error code. -/

structure UserObj where
  id : String
  email : String
  full_name : Option String
  deriving DecidableEq, Repr

structure AuthData where
  user : Option UserObj
  session : Bool
  deriving DecidableEq, Repr

structure AuthRet where
  data : AuthData
  error : Option String
  deriving DecidableEq, Repr

structure PgError where
  code : String
  message : String
  deriving DecidableEq, Repr

structure StudentProfileRow where
  full_name : Option String
  auth_user_id : String
  deriving DecidableEq, Repr

structure ProfRet where
  data : Option StudentProfileRow
  error : Option PgError
  deriving DecidableEq, Repr

/-- A backend call that either threw an exception or returned a value. -/
inductive CallResult (α : Type) where
  | threw (msg : String)
  | returned (v : α)
  deriving DecidableEq, Repr

/-- The observable outcome of a login form submit: inline error, defensive
sign-out, localStorage writes, toast display name, and navigation. -/
structure LoginOutcome where
  loginError : Option String := none
  signedOutCalled : Bool := false
  localStorageWrites : List (String × String) := []
  toastName : Option String := none
  navigatedTo : Option String := none
  deriving DecidableEq, Repr

/-- The shared catch branch of both forms for a thrown exception whose
message mentions "failed to fetch" (case-insensitively). -/
def fetchFailureMsg : String :=
  "Could not connect to the server. Please check your internet connection and ensure the Supabase URL in your .env file is correct."

/-- `AdminLoginForm.onSubmit` as a function of the sign-in call result. -/
def adminOnSubmit (authResp : CallResult AuthRet) : LoginOutcome :=
  match authResp with
  | .threw m =>
    { signedOutCalled := true
      loginError :=
        some (if m != "" && strIncludes m.toLower "failed to fetch" then fetchFailureMsg
              else "An unexpected error occurred. Please try again.") }
  | .returned r =>
    match r.error with
    | some m =>
      { signedOutCalled := true
        loginError :=
          some (if strIncludes m.toLower "invalid login credentials" then
                  "Invalid email or password. Please check your credentials and try again."
                else if strIncludes m.toLower "email not confirmed" then
                  "This admin account's email has not been confirmed. Please check your inbox for a confirmation link."
                else "An unexpected error occurred: " ++ m) }
    | none =>
      match r.data.user, r.data.session with
      | some u, true =>
        { localStorageWrites := [(ADMIN_LOGGED_IN_KEY, "true")]
          toastName := some (match u.full_name with
                             | some s => if s = "" then "Admin" else s
                             | none => "Admin")
          navigatedTo := some "/admin/dashboard" }
      | _, _ =>
        { signedOutCalled := true
          loginError := some "Could not log in. User or session data missing." }

/-- The final branch of `StudentLoginForm.onSubmit`: report a missing
profile, or toast (profile name, falling back to the account email) and
navigate to the student dashboard. -/
def studentProfileFound (pr : ProfRet) (u : UserObj) : LoginOutcome :=
  match pr.data with
  | none =>
    { signedOutCalled := true
      loginError := some "No student profile associated with this login account. Please contact admin." }
  | some sp =>
    { toastName := some (match sp.full_name with
                         | some s => if s = "" then u.email else s
                         | none => u.email)
      navigatedTo := some "/student/dashboard" }

/-- The tail of `StudentLoginForm.onSubmit` once a profile lookup returned:
report a real lookup error, report a missing profile, or toast and navigate. -/
def studentProfileStep (pr : ProfRet) (u : UserObj) : LoginOutcome :=
  match pr.error with
  | some e =>
    if e.code != "PGRST116" then
      { signedOutCalled := true
        loginError := some "Could not verify student profile after login. Please contact admin." }
    else
      studentProfileFound pr u
  | none => studentProfileFound pr u

/-- `StudentLoginForm.onSubmit` as a function of the sign-in call result and
the follow-up profile lookup result. -/
def studentOnSubmit (authResp : CallResult AuthRet)
    (profResp : CallResult ProfRet) : LoginOutcome :=
  match authResp with
  | .threw m =>
    { signedOutCalled := true
      loginError :=
        some (if m != "" && strIncludes m.toLower "failed to fetch" then fetchFailureMsg
              else "An unexpected error occurred: " ++ (if m = "" then "Unknown error" else m) ++ ".") }
  | .returned r =>
    match r.error with
    | some m =>
      { signedOutCalled := true
        loginError :=
          some (if strIncludes m.toLower "invalid login credentials" then
                  "Invalid email or password. Please check your credentials and try again."
                else if strIncludes m.toLower "email not confirmed" then
                  "Your email has not been confirmed. Please check your inbox for a confirmation link."
                else "An unexpected error occurred: " ++ m) }
    | none =>
      match r.data.user, r.data.session with
      | some u, true =>
        match profResp with
        | .threw m =>
          { signedOutCalled := true
            loginError :=
              some (if m != "" && strIncludes m.toLower "failed to fetch" then fetchFailureMsg
                    else "An unexpected error occurred: " ++ (if m = "" then "Unknown error" else m) ++ ".") }
        | .returned pr => studentProfileStep pr u
      | _, _ =>
        { signedOutCalled := true
          loginError := some "Could not log in. User or session data missing." }

/-- Condition (a) of the login gate: the sign-in returned without error and
with both a user object and a session. -/
def authSignInOk : CallResult AuthRet → Bool
  | .threw _ => false
  | .returned r => r.error.isNone && r.data.user.isSome && r.data.session

/-- Condition (b) of the student login gate: the profile lookup returned a
row, and any lookup error it carried was the no-rows code PGRST116. -/
def studentProfileLinked : CallResult ProfRet → Bool
  | .threw _ => false
  | .returned pr =>
    (match pr.error with
     | some e => e.code == "PGRST116"
     | none => true) && pr.data.isSome

/-! ## Theorems -/

/-- C1: In ruleset A, `isAdmin()` holds exactly for an authenticated request
whose token carries the custom claim `isAdmin` as the boolean `true`; an
unauthenticated request, a missing claim, the boolean `false`, and the
string `"true"` all make `isAdmin()` false. -/
theorem c1_isAdminA_strict (a : AuthInfo) :
    isAdminA none = false ∧
    (isAdminA (some a) = true ↔ tokenClaim a "isAdmin" = some (ClaimValue.vBool true)) ∧
    (tokenClaim a "isAdmin" = none → isAdminA (some a) = false) ∧
    (tokenClaim a "isAdmin" = some (ClaimValue.vBool false) → isAdminA (some a) = false) ∧
    (tokenClaim a "isAdmin" = some (ClaimValue.vString "true") → isAdminA (some a) = false) := by
  refine ⟨rfl, ?_, ?_, ?_, ?_⟩
  · cases h : tokenClaim a "isAdmin" with
    | none => simp [isAdminA, h]
    | some v => cases v <;> simp [isAdminA, h, cvEq]
  · intro h; simp [isAdminA, h]
  · intro h; simp [isAdminA, h, cvEq]
  · intro h; simp [isAdminA, h, cvEq]

/-- Witness for C1: a concrete token carrying `isAdmin` as the string
`"true"` does not satisfy ruleset A's `isAdmin()`. -/
theorem c1_isAdminA_strict_witness :
    tokenClaim { uid := "admin-1", token := { claims := [("isAdmin", ClaimValue.vString "true")] } }
        "isAdmin" = some (ClaimValue.vString "true") ∧
    isAdminA (some { uid := "admin-1", token := { claims := [("isAdmin", ClaimValue.vString "true")] } })
      = false :=
  ⟨by decide,
   (c1_isAdminA_strict { uid := "admin-1", token := { claims := [("isAdmin", ClaimValue.vString "true")] } }).2.2.2.2
     (by decide)⟩

/-- C2 counterexample: under ruleset B (also cited by the claim), any
authenticated caller may create a student document whose `studentId` field
differs from the target document key — the create is allowed, not rejected. -/
theorem c2_ruleset_b_counterexample :
    studentsCreateB
        { auth := some { uid := "teacher-1", token := { claims := [] } }
          resourceData := [("studentId", ClaimValue.vString "STU-0001")] }
        "STU-0002" = true ∧
    dataField [("studentId", ClaimValue.vString "STU-0001")] "studentId"
      ≠ some (ClaimValue.vString "STU-0002") := by
  decide

/-- C2 amended: under ruleset A, every create on `students` that the rules
allow — whatever the caller's role — submits a document whose `studentId`
field equals the target document key; a mismatched create is rejected. -/
theorem c2_studentsCreateA_id_matches_key (req : RulesRequest) (docId : String)
    (h : studentsCreateA req docId = true) :
    dataField req.resourceData "studentId" = some (ClaimValue.vString docId) := by
  unfold studentsCreateA at h
  rw [Bool.and_eq_true] at h
  obtain ⟨-, h2⟩ := h
  cases hd : dataField req.resourceData "studentId" with
  | none => rw [hd] at h2; cases h2
  | some v =>
    rw [hd] at h2
    cases v with
    | vBool b => simp [cvEq] at h2
    | vInt n => simp [cvEq] at h2
    | vString s =>
      simp only [cvEq, beq_iff_eq] at h2
      rw [h2]

/-- Witness for C2's amended theorem: a concrete admin create with matching
`studentId` is allowed, and its `studentId` field equals the document key. -/
theorem c2_studentsCreateA_id_matches_key_witness :
    studentsCreateA
        { auth := some { uid := "admin-1", token := { claims := [("isAdmin", ClaimValue.vBool true)] } }
          resourceData := [("studentId", ClaimValue.vString "STU-0001")] }
        "STU-0001" = true ∧
    dataField [("studentId", ClaimValue.vString "STU-0001")] "studentId"
      = some (ClaimValue.vString "STU-0001") :=
  ⟨by decide,
   c2_studentsCreateA_id_matches_key
     { auth := some { uid := "admin-1", token := { claims := [("isAdmin", ClaimValue.vBool true)] } }
       resourceData := [("studentId", ClaimValue.vString "STU-0001")] }
     "STU-0001" (by decide)⟩

/-- A concrete announcement used in concrete evaluations. -/
def exAnn : Announcement :=
  { id := "a1", title := "Sports day", message := "Friday at noon"
    target_audience := "Teachers", author_name := none, created_at := "2024-05-01" }

/-- Helper: a non-empty message mentioning "announcements" is routed by the
catch block to the announcements error state only. -/
theorem dashCatch_ann_route (st : DashState) (m : String) (hm : ¬ m = "")
    (hma : strIncludes m "announcements" = true) :
    dashCatch st m = { st with announcementsError := some ("Failed to load announcements: " ++ m) } := by
  simp only [dashCatch, if_neg hm, hma, if_true]

/-- Helper: a non-empty message not mentioning "announcements" but mentioning
"profile" or "students" is routed by the catch block to the dashboard error
state only, appending to any accumulated error. -/
theorem dashCatch_data_route (st : DashState) (m : String) (hm : ¬ m = "")
    (hma : strIncludes m "announcements" = false)
    (hmp : (strIncludes m "profile" || strIncludes m "students") = true) :
    dashCatch st m
      = { st with error := some (appendError st.error ("Failed to load dashboard data: " ++ m)) } := by
  simp only [dashCatch, if_neg hm, hma, hmp, if_true, Bool.false_eq_true, if_false]

/-- C3 counterexample: when the teacher-profile fetch fails, the announcements
fetch never runs — the resulting state ignores the announcements response
entirely (a successful response and a failing one yield the same state) and
no announcement is available to render. -/
theorem c3_counterexample :
    (loadDashboardData (some "t-1") (.error "teacher profile fetch failed") (.ok none)
        (.ok (some [exAnn]))).announcements = [] ∧
    loadDashboardData (some "t-1") (.error "teacher profile fetch failed") (.ok none)
        (.ok (some [exAnn]))
      = loadDashboardData (some "t-1") (.error "teacher profile fetch failed") (.ok none)
          (.error "announcements unavailable") ∧
    (loadDashboardData (some "t-1") (.error "teacher profile fetch failed") (.ok none)
        (.ok (some [exAnn]))).error.isSome = true := by
  decide

/-- The amended C3 property over the dashboard load embedding. -/
def c3AmendedStatement (u : String) (p : TeacherProfile) (d : Option (List StudentRow))
    (m : String) : Prop :=
  (loadDashboardData (some u) (.ok (some p)) (.ok d) (.error m)).teacherProfile = some p ∧
  (loadDashboardData (some u) (.ok (some p)) (.ok d) (.error m)).studentsByClass
    = (if 0 < p.assigned_classes.length then buildStudentsByClass p.assigned_classes (d.getD []) else []) ∧
  (loadDashboardData (some u) (.ok (some p)) (.ok d) (.error m)).error = none ∧
  (loadDashboardData (some u) (.ok (some p)) (.ok d) (.error m)).announcementsError
    = some ("Failed to load announcements: " ++ m) ∧
  (∀ (pm : String) (sResp : Except String (Option (List StudentRow)))
     (a1 a2 : Except String (Option (List Announcement))),
     loadDashboardData (some u) (.error pm) sResp a1 = loadDashboardData (some u) (.error pm) sResp a2)

/-- C3 amended: the two data groups have separate error states, and an
announcements-fetch failure does not block the profile and roster — they are
loaded and kept while the failure (message mentioning "announcements") lands
only in the announcements error state; however, when the profile fetch fails
the load aborts before the announcements fetch, whose response is never
consulted. -/
theorem c3_error_isolation (u : String) (p : TeacherProfile) (d : Option (List StudentRow))
    (m : String) (hm : ¬ m = "") (hma : strIncludes m "announcements" = true) :
    c3AmendedStatement u p d m := by
  unfold c3AmendedStatement loadDashboardData
  by_cases hcls : 0 < p.assigned_classes.length
  · simp only [if_pos hcls, dashAnnouncements, dashCatch_ann_route _ m hm hma]
    exact ⟨trivial, trivial, trivial, trivial, fun _ _ _ _ => trivial⟩
  · simp only [if_neg hcls, dashAnnouncements, dashCatch_ann_route _ m hm hma]
    exact ⟨trivial, trivial, trivial, trivial, fun _ _ _ _ => trivial⟩

/-- Witness for C3's amended theorem at a concrete profile and failure. -/
theorem c3_error_isolation_witness :
    (¬ ("announcements request timed out" : String) = "" ∧
      strIncludes "announcements request timed out" "announcements" = true) ∧
    c3AmendedStatement "t-1"
      { id := "T1", auth_user_id := "t-1", full_name := "Ama Mensah", email := "ama@school.edu"
        subjects_taught := "Maths", contact_number := "0200000000", assigned_classes := ["5A"] }
      none "announcements request timed out" :=
  ⟨⟨by decide, by decide⟩,
   c3_error_isolation "t-1"
     { id := "T1", auth_user_id := "t-1", full_name := "Ama Mensah", email := "ama@school.edu"
       subjects_taught := "Maths", contact_number := "0200000000", assigned_classes := ["5A"] }
     none "announcements request timed out" (by decide) (by decide)⟩

/-- C7 counterexample: an error whose text contains "students" (and also
"announcements") is routed to the announcements error state, leaving the
profile/students error state empty — refuting the vice-versa half of the
claim. -/
theorem c7_counterexample :
    strIncludes "students announcements fetch failed" "students" = true ∧
    (loadDashboardData (some "t-1") (.error "students announcements fetch failed") (.ok none)
        (.ok none)).error = none ∧
    (loadDashboardData (some "t-1") (.error "students announcements fetch failed") (.ok none)
        (.ok none)).announcementsError
      = some "Failed to load announcements: students announcements fetch failed" := by
  decide

/-- The amended C7 property over the catch-block embedding. -/
def c7AmendedStatement (st : DashState) (m : String) : Prop :=
  (strIncludes m "announcements" = true →
     (dashCatch st m).error = st.error ∧
     (dashCatch st m).announcementsError = some ("Failed to load announcements: " ++ m)) ∧
  (strIncludes m "announcements" = false →
     (strIncludes m "profile" || strIncludes m "students") = true →
     (dashCatch st m).announcementsError = st.announcementsError ∧
     (dashCatch st m).error = some (appendError st.error ("Failed to load dashboard data: " ++ m)))

/-- C7 amended: an error whose text contains "announcements" populates only
the announcements error state; an error whose text contains "profile" or
"students" **and not "announcements"** populates only the profile/students
error state (the "announcements" check runs first). -/
theorem c7_error_routing (st : DashState) (m : String) (hm : ¬ m = "") :
    c7AmendedStatement st m := by
  constructor
  · intro hma
    rw [dashCatch_ann_route st m hm hma]
    exact ⟨rfl, rfl⟩
  · intro hma hmp
    rw [dashCatch_data_route st m hm hma hmp]
    exact ⟨rfl, rfl⟩

/-- Witness for C7's amended theorem on a concrete "students" failure. -/
theorem c7_error_routing_witness :
    ¬ ("students lookup failed" : String) = "" ∧
    c7AmendedStatement {} "students lookup failed" :=
  ⟨by decide, c7_error_routing {} "students lookup failed" (by decide)⟩

/-- Helper: looking up a class that is among the assigned classes yields
exactly the fetched students of that grade level. -/
theorem lookupClass_build (as : List String) (students : List StudentRow) (c : String)
    (hc : c ∈ as) :
    lookupClass (buildStudentsByClass as students) c
      = some (students.filter (fun s => s.grade_level == c)) := by
  induction as with
  | nil => cases hc
  | cons a as ih =>
    by_cases h : a = c
    · subst h
      unfold buildStudentsByClass lookupClass
      rw [List.map_cons, List.find?_cons_of_pos _ (by simp)]
      rfl
    · have hc' : c ∈ as := by
        rcases List.mem_cons.mp hc with he | hm
        · exact absurd he.symm h
        · exact hm
      unfold buildStudentsByClass lookupClass at ih ⊢
      rw [List.map_cons, List.find?_cons_of_neg _ (by simp [h])]
      exact ih hc'

/-- Helper: a student listed under a class key in the built mapping has that
class as grade level. -/
theorem build_grade_matches (as : List String) (students : List StudentRow)
    (c : String) (l : List StudentRow) (s : StudentRow)
    (hm : (c, l) ∈ buildStudentsByClass as students) (hs : s ∈ l) :
    s.grade_level = c := by
  unfold buildStudentsByClass at hm
  rw [List.mem_map] at hm
  obtain ⟨a, -, he⟩ := hm
  have h1 : a = c := congrArg Prod.fst he
  have h2 : students.filter (fun s => s.grade_level == a) = l := congrArg Prod.snd he
  subst h1
  rw [← h2] at hs
  exact beq_iff_eq.mp (List.mem_filter.mp hs).2

/-- The C4 property over the grouping embedding. -/
def c4Statement (p : TeacherProfile) (students : List StudentRow) : Prop :=
  ((buildStudentsByClass p.assigned_classes students).map Prod.fst = p.assigned_classes) ∧
  ((buildStudentsByClass p.assigned_classes students).length = p.assigned_classes.length) ∧
  (∀ c, c ∈ p.assigned_classes →
     lookupClass (buildStudentsByClass p.assigned_classes students) c
       = some (students.filter (fun s => s.grade_level == c))) ∧
  (∀ c l s, (c, l) ∈ buildStudentsByClass p.assigned_classes students → s ∈ l →
     s.grade_level = c) ∧
  (p.assigned_classes = [] →
     ∀ (u : String) (ssResp : Except String (Option (List StudentRow)))
       (annData : Option (List Announcement)),
       (loadDashboardData (some u) (.ok (some p)) ssResp (.ok annData)).studentsByClass = [] ∧
       (loadDashboardData (some u) (.ok (some p)) ssResp (.ok annData)).error = none)

/-- C4: for a teacher profile whose N assigned class names are distinct, the
built class-to-students mapping has exactly those N keys in order (one per
assigned class, present even when empty); each class name maps to exactly
the fetched students whose `grade_level` equals it, and a student never
appears under a different class; with zero assigned classes the mapping is
empty and no error is set. -/
theorem c4_roster_grouping (p : TeacherProfile) (students : List StudentRow)
    (_hnd : p.assigned_classes.Nodup) : c4Statement p students := by
  refine ⟨?_, ?_, ?_, ?_, ?_⟩
  · unfold buildStudentsByClass
    rw [List.map_map]
    exact List.map_id p.assigned_classes
  · unfold buildStudentsByClass
    exact List.length_map _ _
  · exact fun c hc => lookupClass_build p.assigned_classes students c hc
  · exact fun c l s hm hs => build_grade_matches p.assigned_classes students c l s hm hs
  · intro he u ssResp annData
    have hlen : ¬ 0 < p.assigned_classes.length := by simp [he]
    simp only [loadDashboardData, if_neg hlen, dashAnnouncements]
    exact ⟨trivial, trivial⟩

/-- Concrete profile used by C4's witness. -/
def c4ProfileEx : TeacherProfile :=
  { id := "T1", auth_user_id := "t-1", full_name := "Ama Mensah", email := "ama@school.edu"
    subjects_taught := "Maths", contact_number := "0200000000", assigned_classes := ["5A", "5B"] }

/-- Concrete fetched students used by C4's witness. -/
def c4StudentsEx : List StudentRow :=
  [{ student_id_display := "STU-0001", full_name := "Kofi Boateng", date_of_birth := "2014-02-01"
     grade_level := "5A", guardian_name := "Yaw Boateng", guardian_contact := "0240000000"
     contact_email := none }]

/-- Witness for C4 at a concrete profile with two distinct assigned classes. -/
theorem c4_roster_grouping_witness :
    c4ProfileEx.assigned_classes.Nodup ∧ c4Statement c4ProfileEx c4StudentsEx :=
  ⟨by decide, c4_roster_grouping c4ProfileEx c4StudentsEx (by decide)⟩

/-- C5: the student login flow navigates to the student dashboard exactly
when the sign-in returned a user and a session and the follow-up lookup
found a linked student profile row (tolerating only the no-rows code
PGRST116); on every other path it signs out and sets an inline error. -/
theorem c5_student_login_gate (a : CallResult AuthRet) (p : CallResult ProfRet) :
    ((studentOnSubmit a p).navigatedTo
       = if authSignInOk a && studentProfileLinked p then some "/student/dashboard" else none) ∧
    ((studentOnSubmit a p).signedOutCalled = !(authSignInOk a && studentProfileLinked p)) ∧
    ((studentOnSubmit a p).loginError.isSome = !(authSignInOk a && studentProfileLinked p)) := by
  cases a with
  | threw m => simp [studentOnSubmit, authSignInOk]
  | returned r =>
    obtain ⟨⟨user, session⟩, err⟩ := r
    cases err with
    | some m => simp [studentOnSubmit, authSignInOk]
    | none =>
      cases user with
      | none => simp [studentOnSubmit, authSignInOk]
      | some u =>
        cases session with
        | false => simp [studentOnSubmit, authSignInOk]
        | true =>
          cases p with
          | threw pm => simp [studentOnSubmit, authSignInOk, studentProfileLinked]
          | returned pr =>
            obtain ⟨pdata, perr⟩ := pr
            cases perr with
            | none =>
              cases pdata <;>
                simp [studentOnSubmit, studentProfileStep, studentProfileFound,
                  authSignInOk, studentProfileLinked]
            | some e =>
              by_cases hc : e.code = "PGRST116"
              · cases pdata <;>
                  simp [studentOnSubmit, studentProfileStep, studentProfileFound,
                    authSignInOk, studentProfileLinked, hc]
              · cases pdata <;>
                  simp [studentOnSubmit, studentProfileStep, studentProfileFound,
                    authSignInOk, studentProfileLinked, hc]

/-- C6: the admin login form performs no role verification â whenever the
provider returns a user and a session it sets the local admin-logged-in flag
and navigates to the admin dashboard, whatever the account; otherwise it
signs out and reports an error. -/
theorem c6_admin_login_no_role_check (res : CallResult AuthRet) :
    ((adminOnSubmit res).navigatedTo
       = if authSignInOk res then some "/admin/dashboard" else none) ∧
    ((adminOnSubmit res).localStorageWrites
       = if authSignInOk res then [(ADMIN_LOGGED_IN_KEY, "true")] else []) ∧
    ((adminOnSubmit res).signedOutCalled = !authSignInOk res) ∧
    ((adminOnSubmit res).loginError.isSome = !authSignInOk res) := by
  cases res with
  | threw m => simp [adminOnSubmit, authSignInOk]
  | returned r =>
    obtain ⟨⟨user, session⟩, err⟩ := r
    cases err with
    | some m => simp [adminOnSubmit, authSignInOk]
    | none =>
      cases user with
      | none => simp [adminOnSubmit, authSignInOk]
      | some u => cases session <;> simp [adminOnSubmit, authSignInOk]

/-- C8: with no locally stored student display identifier, the attendance
page sets the "not identified" error and renders the error card with a login
link without navigating anywhere, while the teacher dashboard in the
analogous situation sets a not-authenticated error and redirects to the
teacher login route. -/
theorem c8_missing_identity_behavior
    (sdResp : Except String (Option StudentDoc)) (attResp : Except String (List AttEntry))
    (pResp : Except String (Option TeacherProfile))
    (ssResp : Except String (Option (List StudentRow)))
    (annResp : Except String (Option (List Announcement))) :
    (fetchStudentDataAndAttendance none sdResp attResp).error
      = some "Student not identified. Please log in to view attendance." ∧
    (fetchStudentDataAndAttendance none sdResp attResp).redirectedTo = none ∧
    renderAttendancePage (fetchStudentDataAndAttendance none sdResp attResp)
      = .errorCard true ∧
    (loadDashboardData none pResp ssResp annResp).error = some "Not authenticated. Please login." ∧
    (loadDashboardData none pResp ssResp annResp).redirectedTo = some "/auth/teacher/login" :=
  ⟨rfl, rfl, rfl, rfl, rfl⟩

/-- C9: on a successful announcements fetch, the dashboard card renders at
most five announcements â the first five of the returned order â and the
view-all affordance appears exactly when more than five were returned. -/
theorem c9_announcements_cap (anns : List Announcement) :
    (renderAnnouncementsCard false none anns).shown = anns.take 5 ∧
    (renderAnnouncementsCard false none anns).shown.length ≤ 5 ∧
    ((renderAnnouncementsCard false none anns).showViewAll = true ↔ 5 < anns.length) := by
  refine ⟨?_, ?_, ?_⟩
  · cases anns with
    | nil => rfl
    | cons a l => simp [renderAnnouncementsCard]
  · cases anns with
    | nil => simp [renderAnnouncementsCard]
    | cons a l =>
      simp [renderAnnouncementsCard, List.length_take]
  · simp [renderAnnouncementsCard]

/-- Six concrete announcements used by C9's witness. -/
def c9AnnsEx : List Announcement :=
  [{ exAnn with id := "a1" }, { exAnn with id := "a2" }, { exAnn with id := "a3" },
   { exAnn with id := "a4" }, { exAnn with id := "a5" }, { exAnn with id := "a6" }]

/-- Witness for C9 on a concrete six-announcement response. -/
theorem c9_announcements_cap_witness :
    (renderAnnouncementsCard false none c9AnnsEx).shown = c9AnnsEx.take 5 ∧
    (renderAnnouncementsCard false none c9AnnsEx).shown.length ≤ 5 ∧
    ((renderAnnouncementsCard false none c9AnnsEx).showViewAll = true ↔ 5 < c9AnnsEx.length) :=
  c9_announcements_cap c9AnnsEx

/-- Helper: the profile-found tail of the student login never writes local
storage. -/
theorem studentProfileFound_no_writes (pr : ProfRet) (u : UserObj) :
    (studentProfileFound pr u).localStorageWrites = [] := by
  obtain ⟨pdata, perr⟩ := pr
  cases pdata <;> rfl

/-- Helper: the profile step of the student login never writes local storage. -/
theorem studentProfileStep_no_writes (pr : ProfRet) (u : UserObj) :
    (studentProfileStep pr u).localStorageWrites = [] := by
  obtain ⟨pdata, perr⟩ := pr
  cases perr with
  | none => exact studentProfileFound_no_writes ⟨pdata, none⟩ u
  | some e =>
    unfold studentProfileStep
    cases hb : (e.code != "PGRST116") <;>
      simp [hb, studentProfileFound_no_writes]

/-- C10: the student login submit handler never writes to local browser
storage on any path; in particular the student display identifier key stays
unset, so the attendance page afterwards treats the student as not
identified. -/
theorem c10_student_login_no_storage_writes
    (authResp : CallResult AuthRet) (profResp : CallResult ProfRet)
    (sdResp : Except String (Option StudentDoc)) (attResp : Except String (List AttEntry)) :
    (studentOnSubmit authResp profResp).localStorageWrites = [] ∧
    (fetchStudentDataAndAttendance none sdResp attResp).error
      = some "Student not identified. Please log in to view attendance." ∧
    renderAttendancePage (fetchStudentDataAndAttendance none sdResp attResp) = .errorCard true := by
  refine ⟨?_, rfl, rfl⟩
  cases authResp with
  | threw m => rfl
  | returned r =>
    obtain ⟨⟨user, session⟩, err⟩ := r
    cases err with
    | some m => rfl
    | none =>
      cases user with
      | none => rfl
      | some u =>
        cases session with
        | false => rfl
        | true =>
          cases profResp with
          | threw pm => rfl
          | returned pr => exact studentProfileStep_no_writes pr u

end SJM

